import Mathlib

/-!
Verification of the PDF OCR tool (src/ocr_app.py) against its design
specification.

The Python program is shallowly embedded as follows.

- External collaborators (the PDF rasterizer, the OCR backends, the file
  dialogs, the Tk canvas) are modelled symbolically: a rendered bitmap is a
  term recording exactly the inputs of the render call, and each OCR backend
  is an unconstrained function parameter bundled in a `Backends` record.
- Mutable interpreter state (the fields set on the `PDFOCRApp` object) is an
  explicit `AppState` record, and every Tk callback becomes a state
  transition `AppState → AppState` (or a function returning the request the
  callback issues, for the OCR buttons, which mutate no modelled state).
- Python floats holding canvas coordinates and zoom factors are modelled as
  rationals: every value the program ever computes for them is a small
  multiple of 0.25 or comes straight from an event, so rational arithmetic
  is exact for everything we prove.
- A Python exception is modelled with `Except`; a handler that lets an
  exception escape to the Tk main loop is modelled as the state transition
  performing no further mutations (Tk catches the exception and the callback
  simply stops).
-/

/-- Result of a Python `import X` statement for an optional dependency:
it can succeed, fail with `ImportError` (the module is absent), or raise
some other exception while the module initialises. -/
inductive PyImport where
  | ok
  | importError
  | raises (msg : String)
deriving DecidableEq, Repr

/-- The machine environment probed by `get_available_engines`: the outcome
of `import easyocr` and of `import winocr`. -/
structure Env where
  easyocr_import : PyImport
  winocr_import : PyImport
deriving DecidableEq, Repr

/-- Engine identifier `OCREngine.TESSERACT` ("Tesseract"). -/
def OCREngine.TESSERACT : String := "Tesseract"

/-- Engine identifier `OCREngine.EASYOCR` ("EasyOCR"). -/
def OCREngine.EASYOCR : String := "EasyOCR"

/-- Engine identifier `OCREngine.WINDOWS_OCR` ("Windows OCR"). -/
def OCREngine.WINDOWS_OCR : String := "Windows OCR"

/-- The list of known engine identifiers, in the fixed probe order. -/
def OCREngine.knownEngines : List String :=
  [OCREngine.TESSERACT, OCREngine.EASYOCR, OCREngine.WINDOWS_OCR]

/-- Embedding of `OCREngine.get_available_engines`: starts from
`[TESSERACT]`, appends `EASYOCR` if `import easyocr` succeeds, swallowing
only `ImportError` (`except ImportError: pass`), then likewise `WINDOWS_OCR`
for `import winocr`.  An import that raises anything other than
`ImportError` is not caught and propagates out of the call, modelled by the
`Except.error` result. -/
def OCREngine.get_available_engines (env : Env) : Except String (List String) := do
  let easy : List String ←
    match env.easyocr_import with
    | PyImport.ok => Except.ok [OCREngine.EASYOCR]
    | PyImport.importError => Except.ok []
    | PyImport.raises msg => Except.error msg
  let win : List String ←
    match env.winocr_import with
    | PyImport.ok => Except.ok [OCREngine.WINDOWS_OCR]
    | PyImport.importError => Except.ok []
    | PyImport.raises msg => Except.error msg
  Except.ok ([OCREngine.TESSERACT] ++ easy ++ win)

/-- A bitmap as the program handles it: either the rasterization of one PDF
page at a given zoom matrix (`page.get_pixmap(matrix=fitz.Matrix(zx, zy))`,
converted to a PIL image), or the crop of another bitmap to an
integer-bounded box (`Image.crop`). -/
inductive Bitmap where
  | page (docId pageNum : Nat) (zoomX zoomY : ℚ)
  | crop (src : Bitmap) (x1 y1 x2 y2 : ℤ)
deriving DecidableEq, Repr

/-- The three OCR backends, as unconstrained external functions.
`tesseract` is `pytesseract.image_to_string`; `easyocr_readtext` is
`reader.readtext(np.array(image), detail=0, paragraph=True)`, which returns
a list of paragraph strings; `winocr_recognize` is the awaited
`winocr.recognize_pil(image, lang).text`.  Each may raise, modelled by
`Except.error`. -/
structure Backends where
  tesseract : Bitmap → Except String String
  easyocr_readtext : Bitmap → Except String (List String)
  winocr_recognize : Bitmap → Except String String

/-- Errors escaping `OCREngine.perform_ocr`: the `ValueError` raised for an
unknown engine name, or whatever exception the chosen backend raised. -/
inductive OcrError where
  | unknownEngine (engineName : String)
  | backendFailure (msg : String)
deriving DecidableEq, Repr

/-- Tags a backend exception as such when it propagates through
`perform_ocr` unchanged. -/
def liftBackend : Except String String → Except OcrError String
  | Except.ok t => Except.ok t
  | Except.error m => Except.error (OcrError.backendFailure m)

/-- Embedding of `OCREngine._tesseract_ocr`: the raw
`pytesseract.image_to_string` output, unmodified. -/
def OCREngine.tesseract_ocr (be : Backends) (image : Bitmap) : Except String String :=
  be.tesseract image

/-- Embedding of `OCREngine._easyocr_ocr`: the paragraph list returned by
`reader.readtext` is joined with newline separators. -/
def OCREngine.easyocr_ocr (be : Backends) (image : Bitmap) : Except String String := do
  let results ← be.easyocr_readtext image
  Except.ok (String.intercalate "\n" results)

/-- Embedding of `OCREngine._windows_ocr`: the single asynchronous
recognition call is driven to completion and its `.text` returned. -/
def OCREngine.windows_ocr (be : Backends) (image : Bitmap) : Except String String :=
  be.winocr_recognize image

/-- Embedding of `OCREngine.perform_ocr`: dispatches on the engine name to
one of the three backends, and raises `ValueError("Unknown OCR engine: ...")`
for any other name. -/
def OCREngine.perform_ocr (be : Backends) (image : Bitmap) (engine_name : String) :
    Except OcrError String :=
  if engine_name = OCREngine.TESSERACT then
    liftBackend (OCREngine.tesseract_ocr be image)
  else if engine_name = OCREngine.EASYOCR then
    liftBackend (OCREngine.easyocr_ocr be image)
  else if engine_name = OCREngine.WINDOWS_OCR then
    liftBackend (OCREngine.windows_ocr be image)
  else
    Except.error (OcrError.unknownEngine engine_name)

/-- A `fitz` document handle: its identity, its page count, and whether
`close()` has been called on it (a closed handle raises on every use). -/
structure Document where
  docId : Nat
  pageCount : Nat
  closed : Bool
deriving DecidableEq, Repr

/-- The mutable fields of `PDFOCRApp` that the specified behaviour reads or
writes.  Pure UI artifacts (labels, the drawn selection overlay, the status
line) are not modelled. -/
structure AppState where
  pdf_document : Option Document
  current_page : Nat
  total_pages : Nat
  current_image : Option Bitmap
  selection_start : Option (ℚ × ℚ)
  selection_rect : Option (ℚ × ℚ × ℚ × ℚ)
  zoom_level : ℚ
  selected_engine : String
  text_output : String
deriving DecidableEq, Repr

/-- The state `__init__` builds: no document, page 0 of 0, no image, no
selection, zoom 1.0, the chosen default engine, empty output pane. -/
def initialState (engine : String) : AppState :=
  { pdf_document := none
    current_page := 0
    total_pages := 0
    current_image := none
    selection_start := none
    selection_rect := none
    zoom_level := 1
    selected_engine := engine
    text_output := "" }

/-- Python truthiness of the `self.pdf_document` slot: `None` is falsy, and
a `fitz` document answers truthiness through `__len__`, so an open document
is truthy exactly when its page count is nonzero.  (Taking `len` of a
closed handle raises; call sites below model that case explicitly.) -/
def docTruthy : Option Document → Bool
  | none => false
  | some d => d.pageCount != 0

/-- Embedding of `display_page`.  Returns immediately when
`not self.pdf_document` (no document, or an empty one).  A closed handle, or
a page index outside the document, makes the page lookup raise before any
field is assigned, so the state is returned unchanged.  Otherwise the page
is rendered at matrix `(zoom_level * 1.5, zoom_level * 1.5)`, the rendered
image becomes `current_image`, and the selection is cleared
(`selection_rect = None`, `selection_start = None`). -/
def display_page (s : AppState) : AppState :=
  match s.pdf_document with
  | none => s
  | some d =>
    if d.pageCount = 0 then s
    else if d.closed then s
    else if s.current_page < d.pageCount then
      { s with
        current_image :=
          some (Bitmap.page d.docId s.current_page (s.zoom_level * (3 / 2)) (s.zoom_level * (3 / 2)))
        selection_rect := none
        selection_start := none }
    else s

/-- Embedding of `open_pdf`.  The `choice` argument is what the file dialog
and `fitz.open` together produce: `none` when the dialog is cancelled,
`some (Except.error msg)` when a file was chosen but `fitz.open` raised, and
`some (Except.ok doc)` on a successful load.  Before opening, the handler
closes the previous document when `self.pdf_document` is truthy; evaluating
truthiness of an already-closed handle raises inside the `try`, which the
`except` catches with no field yet assigned.  On a successful open the new
document is installed, `total_pages`/`current_page`/`zoom_level` are reset,
and `display_page` runs. -/
def open_pdf (s : AppState) (choice : Option (Except String Document)) : AppState :=
  match choice with
  | none => s
  | some result =>
    match s.pdf_document with
    | some d =>
      if d.closed then s
      else
        let s1 : AppState :=
          if d.pageCount ≠ 0 then
            { s with pdf_document := some { d with closed := true } }
          else s
        match result with
        | Except.error _ => s1
        | Except.ok doc =>
          display_page
            { s1 with
              pdf_document := some doc
              total_pages := doc.pageCount
              current_page := 0
              zoom_level := 1 }
    | none =>
      match result with
      | Except.error _ => s
      | Except.ok doc =>
        display_page
          { s with
            pdf_document := some doc
            total_pages := doc.pageCount
            current_page := 0
            zoom_level := 1 }

/-- Embedding of `prev_page`: `if self.pdf_document and self.current_page > 0`,
then decrement and re-render.  Truthiness of a closed handle raises, leaving
the state unchanged. -/
def prev_page (s : AppState) : AppState :=
  match s.pdf_document with
  | none => s
  | some d =>
    if d.closed then s
    else if d.pageCount ≠ 0 ∧ 0 < s.current_page then
      display_page { s with current_page := s.current_page - 1 }
    else s

/-- Embedding of `next_page`: `if self.pdf_document and
self.current_page < self.total_pages - 1`, then increment and re-render.
(`total_pages - 1` is Python integer arithmetic; over natural-number
truncated subtraction the guard accepts exactly the same states.) -/
def next_page (s : AppState) : AppState :=
  match s.pdf_document with
  | none => s
  | some d =>
    if d.closed then s
    else if d.pageCount ≠ 0 ∧ s.current_page < s.total_pages - 1 then
      display_page { s with current_page := s.current_page + 1 }
    else s

/-- The zoom update performed by `zoom_in`: `min(3.0, self.zoom_level + 0.25)`. -/
def zoom_in_level (z : ℚ) : ℚ := min 3 (z + 1 / 4)

/-- The zoom update performed by `zoom_out`: `max(0.25, self.zoom_level - 0.25)`. -/
def zoom_out_level (z : ℚ) : ℚ := max (1 / 4) (z - 1 / 4)

/-- Embedding of `zoom_in`: clamp-increment the zoom, then re-render. -/
def zoom_in (s : AppState) : AppState :=
  display_page { s with zoom_level := zoom_in_level s.zoom_level }

/-- Embedding of `zoom_out`: clamp-decrement the zoom, then re-render. -/
def zoom_out (s : AppState) : AppState :=
  display_page { s with zoom_level := zoom_out_level s.zoom_level }

/-- Embedding of `on_mouse_press`: ignored with no image; otherwise records
the (scroll-corrected) press point in `selection_start`.  Only the drawn
overlay is deleted here; `selection_rect` is not touched. -/
def on_mouse_press (s : AppState) (p : ℚ × ℚ) : AppState :=
  match s.current_image with
  | none => s
  | some _ => { s with selection_start := some p }

/-- Embedding of `on_mouse_drag`: updates only the canvas preview
rectangle, which is not modelled state. -/
def on_mouse_drag (s : AppState) (_p : ℚ × ℚ) : AppState :=
  s

/-- Embedding of `on_mouse_release`: ignored with no press registered;
otherwise stores the normalized rectangle
`(min(x1,x2), min(y1,y2), max(x1,x2), max(y1,y2))` built from the press
point and the release point. -/
def on_mouse_release (s : AppState) (p : ℚ × ℚ) : AppState :=
  match s.selection_start with
  | none => s
  | some q =>
    { s with
      selection_rect := some (min q.1 p.1, min q.2 p.2, max q.1 p.1, max q.2 p.2) }

/-- Embedding of `clear_selection`: drops both the stored rectangle and the
press point. -/
def clear_selection (s : AppState) : AppState :=
  { s with selection_rect := none, selection_start := none }

/-- Embedding of `display_ocr_result`: the output pane is cleared and
replaced by the new text. -/
def display_ocr_result (s : AppState) (text : String) : AppState :=
  { s with text_output := text }

/-- Python `int()` applied to a float coordinate: truncation toward zero. -/
def pyInt (q : ℚ) : ℤ := Int.tdiv q.num (Int.ofNat q.den)

/-- What an OCR button handler does after its precondition checks: either it
showed a warning dialog and stopped, or it handed this bitmap and engine
name to `OCREngine.perform_ocr` on a worker thread. -/
inductive OcrRequest where
  | warning (msg : String)
  | engineCall (image : Bitmap) (engine : String)
deriving DecidableEq, Repr

/-- Embedding of `ocr_current_page` up to the engine call: warns when no
image is displayed, otherwise submits the currently rendered bitmap. -/
def ocr_current_page (s : AppState) : OcrRequest :=
  match s.current_image with
  | none => OcrRequest.warning "Please open a PDF first."
  | some img => OcrRequest.engineCall img s.selected_engine

/-- Embedding of `ocr_selection` up to the engine call: warns when no image
is displayed, warns when `selection_rect` is `None`, and otherwise submits
the current bitmap cropped to the selection with `int()`-truncated bounds. -/
def ocr_selection (s : AppState) : OcrRequest :=
  match s.current_image with
  | none => OcrRequest.warning "Please open a PDF first."
  | some img =>
    match s.selection_rect with
    | none =>
      OcrRequest.warning
        "Please make a selection first.\nClick and drag on the PDF to select an area."
    | some r =>
      OcrRequest.engineCall
        (Bitmap.crop img (pyInt r.1) (pyInt r.2.1) (pyInt r.2.2.1) (pyInt r.2.2.2))
        s.selected_engine

/-- Outcome of the whole-document OCR handler: precondition warning, an
exception escaping the handler before the worker starts, the worker's error
dialog, or the recognized text delivered to the output pane. -/
inductive DocOcr where
  | warning (msg : String)
  | raised (msg : String)
  | failed (err : OcrError)
  | result (text : String)
deriving DecidableEq, Repr

/-- The worker loop of `ocr_entire_document` over a list of page indices:
each page is rendered at the fixed matrix `fitz.Matrix(1.5, 1.5)`, OCR'd,
and recorded as the section `"--- Page N ---\n" + text + "\n"` with
`N = page_num + 1`; the first exception aborts the rest of the loop. -/
def ocrLoop (be : Backends) (docId : Nat) (engine : String) :
    List Nat → Except OcrError (List String)
  | [] => Except.ok []
  | page_num :: rest => do
    let text ← OCREngine.perform_ocr be (Bitmap.page docId page_num (3 / 2) (3 / 2)) engine
    let tail ← ocrLoop be docId engine rest
    Except.ok (("--- Page " ++ toString (page_num + 1) ++ " ---\n" ++ text ++ "\n") :: tail)

/-- Embedding of `ocr_entire_document`: warns when `not self.pdf_document`;
with a closed handle the truthiness test itself raises out of the handler;
otherwise the worker loops over pages `0 .. total_pages - 1` in order and
joins the collected sections with a blank line (`"\n".join` of sections that
each already end in `"\n"`). -/
def ocr_entire_document (be : Backends) (s : AppState) : DocOcr :=
  match s.pdf_document with
  | none => DocOcr.warning "Please open a PDF first."
  | some d =>
    if d.closed then DocOcr.raised "document closed"
    else if d.pageCount = 0 then DocOcr.warning "Please open a PDF first."
    else
      match ocrLoop be d.docId s.selected_engine (List.range s.total_pages) with
      | Except.error e => DocOcr.failed e
      | Except.ok sections => DocOcr.result (String.intercalate "\n" sections)

/-- Membership test for the character class Python's `str.strip()` removes,
restricted to the ASCII range (the only characters these theorems depend on). -/
def isPySpace (c : Char) : Bool :=
  c = ' ' || c = '\t' || c = '\n' || c = '\r' ||
    c = '\x0b' || c = '\x0c' || c = '\x1c' || c = '\x1d' || c = '\x1e' || c = '\x1f'

/-- Python `str.strip()` on a character list: remove trailing whitespace,
then leading whitespace. -/
def pyStripData (l : List Char) : List Char :=
  ((l.reverse.dropWhile isPySpace).reverse).dropWhile isPySpace

/-- Python `str.strip()`. -/
def pyStrip (s : String) : String :=
  String.mk (pyStripData s.data)

/-- Outcome of the `save_text` handler: the empty-text warning (shown before
any dialog), a cancelled save dialog, or a full overwrite of the chosen file
with the given contents. -/
inductive SaveOutcome where
  | warning (msg : String)
  | cancelled
  | write (path : String) (contents : String)
deriving DecidableEq, Repr

/-- Embedding of `save_text`.  `self.text_output.get(1.0, tk.END)` returns
the pane content followed by the trailing newline Tk always appends; the
handler strips it, warns (before any dialog) when the stripped text is
empty, and otherwise writes the stripped text to the chosen path. -/
def save_text (s : AppState) (chosen : Option String) : SaveOutcome :=
  let text := pyStrip (s.text_output ++ "\n")
  if text = "" then SaveOutcome.warning "No text to save."
  else
    match chosen with
    | none => SaveOutcome.cancelled
    | some path => SaveOutcome.write path text

/-- The user- and worker-generated events that mutate modelled state.  The
three OCR buttons mutate only the status line before their worker runs, so
they are represented by their request functions above; the worker's
completion callback is `displayOcrResult`. -/
inductive Event where
  | openPdf (choice : Option (Except String Document))
  | prevPage
  | nextPage
  | zoomIn
  | zoomOut
  | mousePress (p : ℚ × ℚ)
  | mouseDrag (p : ℚ × ℚ)
  | mouseRelease (p : ℚ × ℚ)
  | clearSelection
  | displayOcrResult (text : String)

/-- One step of the interactive thread: dispatch an event to its handler. -/
def step (s : AppState) : Event → AppState
  | Event.openPdf choice => open_pdf s choice
  | Event.prevPage => prev_page s
  | Event.nextPage => next_page s
  | Event.zoomIn => zoom_in s
  | Event.zoomOut => zoom_out s
  | Event.mousePress p => on_mouse_press s p
  | Event.mouseDrag p => on_mouse_drag s p
  | Event.mouseRelease p => on_mouse_release s p
  | Event.clearSelection => clear_selection s
  | Event.displayOcrResult t => display_ocr_result s t

/-- A document handle for concrete test states: three pages, open. -/
def sampleDoc : Document :=
  { docId := 0, pageCount := 3, closed := false }

/-- A concrete state as it looks right after successfully opening a
three-page document: page 0 displayed at zoom 1.0, no selection. -/
def sampleOpenState : AppState :=
  { initialState OCREngine.TESSERACT with
    pdf_document := some sampleDoc
    total_pages := 3
    current_image := some (Bitmap.page 0 0 (3 / 2) (3 / 2)) }

/-- Projections of `display_page` that the render never changes: the
document handle, the page index, the page total, the zoom, the engine and
the output pane. -/
lemma display_page_core (s : AppState) :
    (display_page s).pdf_document = s.pdf_document ∧
    (display_page s).current_page = s.current_page ∧
    (display_page s).total_pages = s.total_pages ∧
    (display_page s).zoom_level = s.zoom_level ∧
    (display_page s).selected_engine = s.selected_engine ∧
    (display_page s).text_output = s.text_output := by
  rcases h : s.pdf_document with _ | d
  · simp [display_page, h]
  · simp only [display_page, h]
    split_ifs <;> simp [h]

/-- The render never moves the page index. -/
lemma display_page_current_page (s : AppState) :
    (display_page s).current_page = s.current_page := (display_page_core s).2.1

/-- C5: for every press point and release point (with an image displayed so
the press registers), the rectangle stored on release satisfies x1 ≤ x2 and
y1 ≤ y2, and swapping the roles of the two points yields the same
rectangle. -/
theorem claim_C5 (s : AppState) (img : Bitmap) (p1 p2 : ℚ × ℚ)
    (h : s.current_image = some img) :
    ∃ x1 y1 x2 y2,
      (on_mouse_release (on_mouse_press s p1) p2).selection_rect = some (x1, y1, x2, y2) ∧
      x1 ≤ x2 ∧ y1 ≤ y2 ∧
      (on_mouse_release (on_mouse_press s p2) p1).selection_rect =
        (on_mouse_release (on_mouse_press s p1) p2).selection_rect := by
  refine ⟨min p1.1 p2.1, min p1.2 p2.2, max p1.1 p2.1, max p1.2 p2.2, ?_, ?_, ?_, ?_⟩
  · simp [on_mouse_press, on_mouse_release, h]
  · exact le_trans (min_le_left _ _) (le_max_left _ _)
  · exact le_trans (min_le_left _ _) (le_max_left _ _)
  · simp [on_mouse_press, on_mouse_release, h, min_comm, max_comm]

/-- Closed instance of C5 at a concrete state and concrete points. -/
theorem claim_C5_witness :
    ∃ x1 y1 x2 y2,
      (on_mouse_release (on_mouse_press sampleOpenState (1, 2)) (3, 4)).selection_rect =
        some (x1, y1, x2, y2) ∧
      x1 ≤ x2 ∧ y1 ≤ y2 ∧
      (on_mouse_release (on_mouse_press sampleOpenState (3, 4)) (1, 2)).selection_rect =
        (on_mouse_release (on_mouse_press sampleOpenState (1, 2)) (3, 4)).selection_rect :=
  claim_C5 sampleOpenState (Bitmap.page 0 0 (3 / 2) (3 / 2)) (1, 2) (3, 4) rfl

/-- Clamped increments absorb an inner clamp: stepping up from a value
already clamped to at most 3 is the same as stepping up and clamping once. -/
lemma zoom_in_level_absorb (x : ℚ) : zoom_in_level (min 3 x) = zoom_in_level x := by
  unfold zoom_in_level
  rcases le_total x 3 with h | h
  · rw [min_eq_right h]
  · rw [min_eq_left h, min_eq_left (by linarith), min_eq_left (by linarith)]

/-- Value of the n-fold zoom-in iterate from 1.0. -/
lemma zoom_in_iterate (n : ℕ) : zoom_in_level^[n] 1 = min 3 (1 + (n : ℚ) / 4) := by
  induction n with
  | zero => norm_num
  | succ n ih =>
    rw [Function.iterate_succ_apply', ih, zoom_in_level_absorb]
    unfold zoom_in_level
    push_cast
    congr 1
    ring

/-- Clamped decrements absorb an inner clamp symmetrically. -/
lemma zoom_out_level_absorb (x : ℚ) : zoom_out_level (max (1 / 4) x) = zoom_out_level x := by
  unfold zoom_out_level
  rcases le_total x (1 / 4) with h | h
  · rw [max_eq_left h, max_eq_left (by linarith), max_eq_left (by linarith)]
  · rw [max_eq_right h]

/-- Value of the n-fold zoom-out iterate from 1.0. -/
lemma zoom_out_iterate (n : ℕ) : zoom_out_level^[n] 1 = max (1 / 4) (1 - (n : ℚ) / 4) := by
  induction n with
  | zero => norm_num
  | succ n ih =>
    rw [Function.iterate_succ_apply', ih, zoom_out_level_absorb]
    unfold zoom_out_level
    push_cast
    congr 1
    ring

/-- C7: the zoom factor is the clamped scalar the handlers compute; it is
1.0 initially, each zoom step lands back in [0.25, 3.0], any sequence of
zoom clicks started from 1.0 stays in [0.25, 3.0], an unclamped step adds
or subtracts exactly 0.25, repeated zoom-in stabilizes at exactly 3.0 and
repeated zoom-out at exactly 0.25. -/
theorem claim_C7 :
    (∀ s : AppState, (zoom_in s).zoom_level = zoom_in_level s.zoom_level ∧
      (zoom_out s).zoom_level = zoom_out_level s.zoom_level) ∧
    (∀ e, (initialState e).zoom_level = 1) ∧
    (∀ z : ℚ, z ∈ Set.Icc (1 / 4 : ℚ) 3 →
      zoom_in_level z ∈ Set.Icc (1 / 4 : ℚ) 3 ∧ zoom_out_level z ∈ Set.Icc (1 / 4 : ℚ) 3) ∧
    (∀ l : List Bool,
      l.foldl (fun z b => if b then zoom_in_level z else zoom_out_level z) 1 ∈
        Set.Icc (1 / 4 : ℚ) 3) ∧
    (∀ z : ℚ, z + 1 / 4 ≤ 3 → zoom_in_level z = z + 1 / 4) ∧
    (∀ z : ℚ, 1 / 4 ≤ z - 1 / 4 → zoom_out_level z = z - 1 / 4) ∧
    (∀ n : ℕ, 8 ≤ n → zoom_in_level^[n] 1 = 3) ∧
    (∀ n : ℕ, 3 ≤ n → zoom_out_level^[n] 1 = 1 / 4) := by
  have hstep : ∀ z : ℚ, z ∈ Set.Icc (1 / 4 : ℚ) 3 →
      zoom_in_level z ∈ Set.Icc (1 / 4 : ℚ) 3 ∧ zoom_out_level z ∈ Set.Icc (1 / 4 : ℚ) 3 := by
    intro z hz
    rcases Set.mem_Icc.mp hz with ⟨h1, h2⟩
    constructor
    · exact Set.mem_Icc.mpr ⟨le_min (by norm_num) (by linarith), min_le_left _ _⟩
    · exact Set.mem_Icc.mpr ⟨le_max_left _ _, max_le (by norm_num) (by linarith)⟩
  refine ⟨?_, ?_, hstep, ?_, ?_, ?_, ?_, ?_⟩
  · intro s
    exact ⟨(display_page_core _).2.2.2.1, (display_page_core _).2.2.2.1⟩
  · intro e; rfl
  · have general : ∀ (l : List Bool) (z : ℚ), z ∈ Set.Icc (1 / 4 : ℚ) 3 →
        l.foldl (fun z b => if b then zoom_in_level z else zoom_out_level z) z ∈
          Set.Icc (1 / 4 : ℚ) 3 := by
      intro l
      induction l with
      | nil => intro z hz; exact hz
      | cons b rest ih =>
        intro z hz
        rcases b <;> simp only [List.foldl_cons, if_true, if_false, Bool.false_eq_true]
        · exact ih _ (hstep z hz).2
        · exact ih _ (hstep z hz).1
    intro l
    exact general l 1 (Set.mem_Icc.mpr (by norm_num))
  · intro z hz
    exact min_eq_right hz
  · intro z hz
    exact max_eq_right hz
  · intro n hn
    rw [zoom_in_iterate]
    have : (8 : ℚ) ≤ (n : ℚ) := by exact_mod_cast hn
    rw [min_eq_left (by linarith)]
  · intro n hn
    rw [zoom_out_iterate]
    have : (3 : ℚ) ≤ (n : ℚ) := by exact_mod_cast hn
    rw [max_eq_left (by linarith)]

/-- Closed instance of C7: one exact step from 1.0, and both stabilization
points, computed concretely. -/
theorem claim_C7_witness :
    zoom_in_level 1 = 1 + 1 / 4 ∧ zoom_in_level^[8] 1 = 3 ∧ zoom_out_level^[3] 1 = 1 / 4 :=
  ⟨claim_C7.2.2.2.2.1 1 (by norm_num), claim_C7.2.2.2.2.2.2.1 8 (by norm_num),
    claim_C7.2.2.2.2.2.2.2 3 (by norm_num)⟩

/-- C8: with a document open, the previous-page button at index 0 changes
nothing, the next-page button at the last page changes nothing, every other
click moves the index by exactly one, and a valid index stays valid. -/
theorem claim_C8 (s : AppState) (d : Document)
    (hd : s.pdf_document = some d) (hopen : d.closed = false) (hpc : d.pageCount ≠ 0) :
    (s.current_page = 0 → prev_page s = s) ∧
    (s.current_page = s.total_pages - 1 → next_page s = s) ∧
    (0 < s.current_page → (prev_page s).current_page = s.current_page - 1) ∧
    (s.current_page < s.total_pages - 1 → (next_page s).current_page = s.current_page + 1) ∧
    (s.current_page < s.total_pages →
      (prev_page s).current_page < s.total_pages ∧
      (next_page s).current_page < s.total_pages) := by
  refine ⟨?_, ?_, ?_, ?_, ?_⟩
  · intro h0
    unfold prev_page
    simp only [hd, hopen]
    rw [if_neg (by simp)]
    rw [if_neg (by omega)]
  · intro hlast
    unfold next_page
    simp only [hd, hopen]
    rw [if_neg (by simp)]
    rw [if_neg (by omega)]
  · intro hpos
    unfold prev_page
    simp only [hd, hopen]
    rw [if_neg (by simp)]
    rw [if_pos ⟨hpc, hpos⟩]
    exact (display_page_core _).2.1
  · intro hlt
    unfold next_page
    simp only [hd, hopen]
    rw [if_neg (by simp)]
    rw [if_pos ⟨hpc, hlt⟩]
    exact (display_page_core _).2.1
  · intro hvalid
    constructor
    · unfold prev_page
      simp only [hd, hopen]
      rw [if_neg (by simp)]
      by_cases hg : d.pageCount ≠ 0 ∧ 0 < s.current_page
      · rw [if_pos hg, display_page_current_page]
        show s.current_page - 1 < s.total_pages
        omega
      · rw [if_neg hg]
        exact hvalid
    · unfold next_page
      simp only [hd, hopen]
      rw [if_neg (by simp)]
      by_cases hg : d.pageCount ≠ 0 ∧ s.current_page < s.total_pages - 1
      · rw [if_pos hg, display_page_current_page]
        show s.current_page + 1 < s.total_pages
        omega
      · rw [if_neg hg]
        exact hvalid

/-- Closed instance of C8: at page 0 of the three-page document, previous
is a no-op and next moves to page 1. -/
theorem claim_C8_witness :
    prev_page sampleOpenState = sampleOpenState ∧
    (next_page sampleOpenState).current_page = 0 + 1 :=
  ⟨(claim_C8 sampleOpenState sampleDoc rfl rfl (by decide)).1 rfl,
    (claim_C8 sampleOpenState sampleDoc rfl rfl (by decide)).2.2.2.1 (by decide)⟩

/-- A concrete state with a selection rectangle drawn on page 0. -/
def sampleSelectedState : AppState :=
  { sampleOpenState with
    selection_rect := some (1, 1, 2, 2)
    selection_start := some (1, 1) }

/-- C4: the selection-OCR handler warns, and never reaches the engine, if
and only if no image is displayed or no selection rectangle exists; with an
image and a rectangle present it submits the current bitmap cropped to the
rectangle with int()-truncated bounds, to the selected engine. -/
theorem claim_C4 (s : AppState) :
    ((∃ m, ocr_selection s = OcrRequest.warning m) ↔
      (s.current_image = none ∨ s.selection_rect = none)) ∧
    ((∀ b e, ocr_selection s ≠ OcrRequest.engineCall b e) ↔
      (s.current_image = none ∨ s.selection_rect = none)) ∧
    (∀ img r, s.current_image = some img → s.selection_rect = some r →
      ocr_selection s =
        OcrRequest.engineCall
          (Bitmap.crop img (pyInt r.1) (pyInt r.2.1) (pyInt r.2.2.1) (pyInt r.2.2.2))
          s.selected_engine) := by
  rcases himg : s.current_image with _ | img
  · refine ⟨?_, ?_, ?_⟩
    · simp [ocr_selection, himg]
    · simp [ocr_selection, himg]
    · intro img r h1 h2
      simp at h1
  · rcases hrect : s.selection_rect with _ | r
    · refine ⟨?_, ?_, ?_⟩
      · simp [ocr_selection, himg, hrect]
      · simp [ocr_selection, himg, hrect]
      · intro img2 r2 h1 h2
        simp at h2
    · refine ⟨?_, ?_, ?_⟩
      · simp [ocr_selection, himg, hrect]
      · simp [ocr_selection, himg, hrect]
      · intro img2 r2 h1 h2
        cases Option.some.inj h1
        cases Option.some.inj h2
        simp [ocr_selection, himg, hrect]

/-- Closed instance of C4: with a selection present the handler submits the
exact crop; with none it warns. -/
theorem claim_C4_witness :
    ocr_selection sampleSelectedState =
      OcrRequest.engineCall
        (Bitmap.crop (Bitmap.page 0 0 (3 / 2) (3 / 2)) (pyInt 1) (pyInt 1) (pyInt 2) (pyInt 2))
        sampleSelectedState.selected_engine ∧
    (∃ m, ocr_selection sampleOpenState = OcrRequest.warning m) :=
  ⟨(claim_C4 sampleSelectedState).2.2 (Bitmap.page 0 0 (3 / 2) (3 / 2)) (1, 1, 2, 2) rfl rfl,
    (claim_C4 sampleOpenState).1.mpr (Or.inr rfl)⟩

/-- The unknown-engine error never comes out of a backend dispatch. -/
lemma liftBackend_ne_unknown (r : Except String String) (m : String) :
    liftBackend r ≠ Except.error (OcrError.unknownEngine m) := by
  cases r <;> simp [liftBackend]

/-- C9: `perform_ocr` raises the unsupported-engine error exactly for names
outside the three known identifiers; each known identifier dispatches to its
backend strategy (whose own outcome, success or failure, passes through). -/
theorem claim_C9 (be : Backends) (img : Bitmap) (e : String) :
    ((∃ m, OCREngine.perform_ocr be img e = Except.error (OcrError.unknownEngine m)) ↔
      ¬ e ∈ OCREngine.knownEngines) ∧
    (e = OCREngine.TESSERACT →
      OCREngine.perform_ocr be img e = liftBackend (OCREngine.tesseract_ocr be img)) ∧
    (e = OCREngine.EASYOCR →
      OCREngine.perform_ocr be img e = liftBackend (OCREngine.easyocr_ocr be img)) ∧
    (e = OCREngine.WINDOWS_OCR →
      OCREngine.perform_ocr be img e = liftBackend (OCREngine.windows_ocr be img)) ∧
    (¬ e ∈ OCREngine.knownEngines →
      OCREngine.perform_ocr be img e = Except.error (OcrError.unknownEngine e)) := by
  by_cases h1 : e = OCREngine.TESSERACT
  · subst h1
    refine ⟨?_, fun _ => by simp [OCREngine.perform_ocr], ?_, ?_, ?_⟩
    · constructor
      · rintro ⟨m, hm⟩
        rw [show OCREngine.perform_ocr be img OCREngine.TESSERACT =
            liftBackend (OCREngine.tesseract_ocr be img) by simp [OCREngine.perform_ocr]] at hm
        exact absurd hm (liftBackend_ne_unknown _ _)
      · intro hmem
        exact absurd (by simp [OCREngine.knownEngines]) hmem
    · intro h; exact absurd h (by decide)
    · intro h; exact absurd h (by decide)
    · intro hmem
      exact absurd (by simp [OCREngine.knownEngines]) hmem
  · by_cases h2 : e = OCREngine.EASYOCR
    · subst h2
      refine ⟨?_, ?_, fun _ => ?_, ?_, ?_⟩
      · constructor
        · rintro ⟨m, hm⟩
          rw [show OCREngine.perform_ocr be img OCREngine.EASYOCR =
              liftBackend (OCREngine.easyocr_ocr be img) by
            simp [OCREngine.perform_ocr, h1]] at hm
          exact absurd hm (liftBackend_ne_unknown _ _)
        · intro hmem
          exact absurd (by simp [OCREngine.knownEngines]) hmem
      · intro h; exact absurd h h1
      · simp [OCREngine.perform_ocr, h1]
      · intro h; exact absurd h (by decide)
      · intro hmem
        exact absurd (by simp [OCREngine.knownEngines]) hmem
    · by_cases h3 : e = OCREngine.WINDOWS_OCR
      · subst h3
        refine ⟨?_, ?_, ?_, fun _ => ?_, ?_⟩
        · constructor
          · rintro ⟨m, hm⟩
            rw [show OCREngine.perform_ocr be img OCREngine.WINDOWS_OCR =
                liftBackend (OCREngine.windows_ocr be img) by
              simp [OCREngine.perform_ocr, h1, h2]] at hm
            exact absurd hm (liftBackend_ne_unknown _ _)
          · intro hmem
            exact absurd (by simp [OCREngine.knownEngines]) hmem
        · intro h; exact absurd h h1
        · intro h; exact absurd h h2
        · simp [OCREngine.perform_ocr, h1, h2]
        · intro hmem
          exact absurd (by simp [OCREngine.knownEngines]) hmem
      · have hrun : OCREngine.perform_ocr be img e =
            Except.error (OcrError.unknownEngine e) := by
          simp [OCREngine.perform_ocr, h1, h2, h3]
        refine ⟨?_, fun h => absurd h h1, fun h => absurd h h2, fun h => absurd h h3,
          fun _ => hrun⟩
        constructor
        · intro _
          simp [OCREngine.knownEngines, h1, h2, h3]
        · intro _
          exact ⟨e, hrun⟩

/-- A fixed set of backends for concrete runs: Tesseract always answers
"hello", the others answer nothing. -/
def sampleBackends : Backends :=
  { tesseract := fun _ => Except.ok "hello"
    easyocr_readtext := fun _ => Except.ok []
    winocr_recognize := fun _ => Except.ok "" }

/-- Closed instance of C9: an unknown name is rejected, a known name
dispatches. -/
theorem claim_C9_witness :
    (∃ m, OCREngine.perform_ocr sampleBackends (Bitmap.page 0 0 1 1) "nope" =
      Except.error (OcrError.unknownEngine m)) ∧
    OCREngine.perform_ocr sampleBackends (Bitmap.page 0 0 1 1) OCREngine.TESSERACT =
      liftBackend (OCREngine.tesseract_ocr sampleBackends (Bitmap.page 0 0 1 1)) :=
  ⟨(claim_C9 sampleBackends (Bitmap.page 0 0 1 1) "nope").1.mpr (by decide),
    (claim_C9 sampleBackends (Bitmap.page 0 0 1 1) OCREngine.TESSERACT).2.1 rfl⟩

/-- Stripping is unaffected by the trailing newline that the Tk text widget
appends to the pane content. -/
lemma pyStrip_append_newline (t : String) : pyStrip (t ++ "\n") = pyStrip t := by
  have hd : (t ++ "\n").data = t.data ++ ['\n'] := rfl
  unfold pyStrip pyStripData
  rw [hd, List.reverse_append]
  have : (['\n'] : List Char).reverse ++ t.data.reverse = '\n' :: t.data.reverse := rfl
  rw [this, List.dropWhile_cons, if_pos (by decide)]

/-- C10: when the stripped pane text is empty the save handler warns before
any dialog can run; otherwise the dialog's chosen file receives exactly the
pane text stripped of leading and trailing whitespace. -/
theorem claim_C10 (s : AppState) :
    (pyStrip s.text_output = "" →
      ∀ chosen, save_text s chosen = SaveOutcome.warning "No text to save.") ∧
    (pyStrip s.text_output ≠ "" →
      save_text s none = SaveOutcome.cancelled ∧
      ∀ path, save_text s (some path) = SaveOutcome.write path (pyStrip s.text_output)) := by
  constructor
  · intro hempty chosen
    unfold save_text
    rw [pyStrip_append_newline, if_pos hempty]
  · intro hne
    constructor
    · unfold save_text
      rw [pyStrip_append_newline, if_neg hne]
    · intro path
      unfold save_text
      rw [pyStrip_append_newline, if_neg hne]

/-- A concrete state whose output pane holds text with surrounding
whitespace. -/
def sampleTextState : AppState :=
  { initialState OCREngine.TESSERACT with text_output := "  hello  " }

/-- Closed instance of C10: the empty pane warns with no write, the padded
pane is saved stripped, not verbatim. -/
theorem claim_C10_witness :
    save_text (initialState OCREngine.TESSERACT) (some "out.txt") =
      SaveOutcome.warning "No text to save." ∧
    save_text sampleTextState (some "out.txt") =
      SaveOutcome.write "out.txt" (pyStrip "  hello  ") ∧
    pyStrip "  hello  " = "hello" :=
  ⟨(claim_C10 (initialState OCREngine.TESSERACT)).1 rfl (some "out.txt"),
    ((claim_C10 sampleTextState).2 (by decide)).2 "out.txt",
    by decide⟩

/-- C3 fails as stated: a detection failure other than `ImportError` is not
swallowed.  When `import easyocr` raises any non-ImportError exception, the
whole `get_available_engines` call propagates it instead of omitting the
engine. -/
theorem claim_C3_counterexample :
    OCREngine.get_available_engines
        { easyocr_import := PyImport.raises "easyocr raised at import time"
          winocr_import := PyImport.ok } =
      Except.error "easyocr raised at import time" := rfl

/-- C3 (amended): when each optional import either succeeds or fails with
`ImportError`, the call returns normally with the local-binary engine first,
in the fixed order Tesseract, EasyOCR, Windows OCR, and contains an optional
engine exactly when its import succeeded; an `ImportError` is swallowed and
merely omits the engine, but any other exception raised by an import
propagates out of the call. -/
theorem claim_C3 (env : Env)
    (he : ∀ m, env.easyocr_import ≠ PyImport.raises m)
    (hw : ∀ m, env.winocr_import ≠ PyImport.raises m) :
    ∃ l, OCREngine.get_available_engines env = Except.ok l ∧
      l = [OCREngine.TESSERACT] ++
          (if env.easyocr_import = PyImport.ok then [OCREngine.EASYOCR] else []) ++
          (if env.winocr_import = PyImport.ok then [OCREngine.WINDOWS_OCR] else []) ∧
      l.head? = some OCREngine.TESSERACT ∧
      (OCREngine.EASYOCR ∈ l ↔ env.easyocr_import = PyImport.ok) ∧
      (OCREngine.WINDOWS_OCR ∈ l ↔ env.winocr_import = PyImport.ok) := by
  rcases hE : env.easyocr_import with _ | _ | m
  · rcases hW : env.winocr_import with _ | _ | m
    · refine ⟨[OCREngine.TESSERACT, OCREngine.EASYOCR, OCREngine.WINDOWS_OCR],
        ?_, ?_, rfl, ?_, ?_⟩
      · simp [OCREngine.get_available_engines, hE, hW]
        rfl
      · decide
      · decide
      · decide
    · refine ⟨[OCREngine.TESSERACT, OCREngine.EASYOCR], ?_, ?_, rfl, ?_, ?_⟩
      · simp [OCREngine.get_available_engines, hE, hW]
        rfl
      · decide
      · decide
      · decide
    · exact absurd hW (hw m)
  · rcases hW : env.winocr_import with _ | _ | m
    · refine ⟨[OCREngine.TESSERACT, OCREngine.WINDOWS_OCR], ?_, ?_, rfl, ?_, ?_⟩
      · simp [OCREngine.get_available_engines, hE, hW]
        rfl
      · decide
      · decide
      · decide
    · refine ⟨[OCREngine.TESSERACT], ?_, ?_, rfl, ?_, ?_⟩
      · simp [OCREngine.get_available_engines, hE, hW]
        rfl
      · decide
      · decide
      · decide
    · exact absurd hW (hw m)
  · exact absurd hE (he m)

/-- Closed instance of the amended C3: EasyOCR importable, winocr absent
with a swallowed ImportError. -/
theorem claim_C3_witness :
    ∃ l, OCREngine.get_available_engines
        { easyocr_import := PyImport.ok, winocr_import := PyImport.importError } =
      Except.ok l ∧
      l = [OCREngine.TESSERACT] ++ [OCREngine.EASYOCR] ++ [] ∧
      l.head? = some OCREngine.TESSERACT ∧
      (OCREngine.EASYOCR ∈ l ↔ True) ∧
      (OCREngine.WINDOWS_OCR ∈ l ↔ False) := by
  have h := claim_C3
    { easyocr_import := PyImport.ok, winocr_import := PyImport.importError }
    (fun m hm => nomatch hm) (fun m hm => nomatch hm)
  rcases h with ⟨l, h1, h2, h3, h4, h5⟩
  exact ⟨l, h1, by simpa using h2, h3, by simpa using h4, by simpa using h5⟩

/-- C1 fails as stated: the handler closes the previous document before
calling `fitz.open`, so when the load fails the previously open document,
although still installed in the `pdf_document` slot, has already been
closed and is no longer usable. -/
theorem claim_C1_counterexample :
    (open_pdf sampleOpenState (some (Except.error "failed to open"))).pdf_document ≠
      sampleOpenState.pdf_document ∧
    (open_pdf sampleOpenState (some (Except.error "failed to open"))).pdf_document =
      some { docId := 0, pageCount := 3, closed := true } := by
  constructor
  · intro h
    have : (some { docId := 0, pageCount := 3, closed := true } : Option Document) =
        some sampleDoc := h
    simp [sampleDoc] at this
  · rfl

/-- C1 (amended): when opening a new PDF fails, no partial document is
installed and the page index, page total, zoom factor, displayed image,
selection and output pane all keep their prior values; with no document
previously open the state is entirely unchanged, and the previously open
document, if any, stays installed with the same identity and page count —
but it has already been closed by the handler before the failed load, so it
is no longer usable. -/
theorem claim_C1 (s : AppState) (msg : String) :
    (open_pdf s (some (Except.error msg))).current_page = s.current_page ∧
    (open_pdf s (some (Except.error msg))).total_pages = s.total_pages ∧
    (open_pdf s (some (Except.error msg))).zoom_level = s.zoom_level ∧
    (open_pdf s (some (Except.error msg))).current_image = s.current_image ∧
    (open_pdf s (some (Except.error msg))).selection_rect = s.selection_rect ∧
    (open_pdf s (some (Except.error msg))).selection_start = s.selection_start ∧
    (open_pdf s (some (Except.error msg))).selected_engine = s.selected_engine ∧
    (open_pdf s (some (Except.error msg))).text_output = s.text_output ∧
    (s.pdf_document = none → open_pdf s (some (Except.error msg)) = s) ∧
    (∀ d, s.pdf_document = some d →
      ∃ d2, (open_pdf s (some (Except.error msg))).pdf_document = some d2 ∧
        d2.docId = d.docId ∧ d2.pageCount = d.pageCount) := by
  rcases hdoc : s.pdf_document with _ | d
  · refine ⟨?_, ?_, ?_, ?_, ?_, ?_, ?_, ?_, fun _ => ?_, ?_⟩ <;>
      simp [open_pdf, hdoc]
  · by_cases hc : d.closed
    · refine ⟨?_, ?_, ?_, ?_, ?_, ?_, ?_, ?_, ?_, ?_⟩ <;>
        simp [open_pdf, hdoc, hc]
    · by_cases hp : d.pageCount ≠ 0
      · refine ⟨?_, ?_, ?_, ?_, ?_, ?_, ?_, ?_, ?_, ?_⟩ <;>
          simp [open_pdf, hdoc, hc, hp]
      · refine ⟨?_, ?_, ?_, ?_, ?_, ?_, ?_, ?_, ?_, ?_⟩ <;>
          simp [open_pdf, hdoc, hc, hp]

/-- Closed instance of the amended C1 at the concrete three-page state. -/
theorem claim_C1_witness :
    (open_pdf sampleOpenState (some (Except.error "boom"))).current_page =
      sampleOpenState.current_page ∧
    (open_pdf sampleOpenState (some (Except.error "boom"))).zoom_level =
      sampleOpenState.zoom_level ∧
    ∃ d2, (open_pdf sampleOpenState (some (Except.error "boom"))).pdf_document = some d2 ∧
      d2.docId = sampleDoc.docId ∧ d2.pageCount = sampleDoc.pageCount :=
  ⟨(claim_C1 sampleOpenState "boom").1,
    (claim_C1 sampleOpenState "boom").2.2.1,
    (claim_C1 sampleOpenState "boom").2.2.2.2.2.2.2.2.2 sampleDoc rfl⟩

/-- When every engine call on this run succeeds and returns `f` of its
input, the whole-document loop succeeds and collects exactly one section
per listed page, in list order. -/
lemma ocrLoop_ok (be : Backends) (docId : Nat) (engine : String) (f : Bitmap → String)
    (hf : ∀ img, OCREngine.perform_ocr be img engine = Except.ok (f img)) :
    ∀ l : List Nat, ocrLoop be docId engine l =
      Except.ok (l.map fun p =>
        "--- Page " ++ toString (p + 1) ++ " ---\n" ++
          f (Bitmap.page docId p (3 / 2) (3 / 2)) ++ "\n") := by
  intro l
  induction l with
  | nil => rfl
  | cons p rest ih =>
    simp only [ocrLoop, hf, ih, List.map_cons]
    rfl

/-- The emitted header numbers, in emission order, are strictly ascending. -/
lemma headerNums_sorted (n : ℕ) :
    List.Sorted (· < ·) ((List.range n).map fun p => p + 1) :=
  List.Pairwise.map _ (fun _ _ hab => Nat.succ_lt_succ hab) (List.pairwise_lt_range n)

/-- Each number from 1 to n is emitted as a header exactly once; no other
number is ever emitted. -/
lemma headerNums_count (n N : ℕ) :
    ((List.range n).map fun p => p + 1).count N = if 1 ≤ N ∧ N ≤ n then 1 else 0 := by
  induction n with
  | zero =>
    simp only [List.range_zero, List.map_nil, List.count_nil]
    rw [if_neg (by omega)]
  | succ n ih =>
    rw [List.range_succ, List.map_append, List.count_append, ih]
    simp only [List.map_cons, List.map_nil, List.count_singleton, beq_iff_eq]
    split_ifs <;> omega

/-- C2: with a document open and an engine whose calls all succeed on this
run, whole-document OCR yields the sections for pages 0..pageCount-1 in
order, each rendered at the fixed matrix (1.5, 1.5) whatever the interactive
zoom is, joined by a blank line; there are exactly pageCount sections, the
i-th section carries header number i+1 followed by that page's text, and
the header numbers 1..pageCount each occur exactly once, in ascending
order. -/
theorem claim_C2 (be : Backends) (s : AppState) (d : Document) (f : Bitmap → String)
    (hd : s.pdf_document = some d) (hopen : d.closed = false)
    (htp : s.total_pages = d.pageCount) (hpc : d.pageCount ≠ 0)
    (hf : ∀ img, OCREngine.perform_ocr be img s.selected_engine = Except.ok (f img)) :
    ocr_entire_document be s =
      DocOcr.result (String.intercalate "\n" ((List.range d.pageCount).map fun p =>
        "--- Page " ++ toString (p + 1) ++ " ---\n" ++
          f (Bitmap.page d.docId p (3 / 2) (3 / 2)) ++ "\n")) ∧
    (∀ z : ℚ, ocr_entire_document be { s with zoom_level := z } = ocr_entire_document be s) ∧
    ((List.range d.pageCount).map fun p =>
        "--- Page " ++ toString (p + 1) ++ " ---\n" ++
          f (Bitmap.page d.docId p (3 / 2) (3 / 2)) ++ "\n").length = d.pageCount ∧
    (∀ i, i < d.pageCount →
      ((List.range d.pageCount).map fun p =>
        "--- Page " ++ toString (p + 1) ++ " ---\n" ++
          f (Bitmap.page d.docId p (3 / 2) (3 / 2)) ++ "\n")[i]? =
        some ("--- Page " ++ toString (i + 1) ++ " ---\n" ++
          f (Bitmap.page d.docId i (3 / 2) (3 / 2)) ++ "\n")) ∧
    List.Sorted (· < ·) ((List.range d.pageCount).map fun p => p + 1) ∧
    (∀ N, ((List.range d.pageCount).map fun p => p + 1).count N =
      if 1 ≤ N ∧ N ≤ d.pageCount then 1 else 0) := by
  have hmain : ocr_entire_document be s =
      DocOcr.result (String.intercalate "\n" ((List.range d.pageCount).map fun p =>
        "--- Page " ++ toString (p + 1) ++ " ---\n" ++
          f (Bitmap.page d.docId p (3 / 2) (3 / 2)) ++ "\n")) := by
    unfold ocr_entire_document
    simp only [hd]
    rw [if_neg (by simp [hopen]), if_neg hpc, htp,
      ocrLoop_ok be d.docId s.selected_engine f hf]
  refine ⟨hmain, fun z => rfl, by simp, ?_, headerNums_sorted _, fun N => headerNums_count _ N⟩
  intro i hi
  rw [List.getElem?_map, List.getElem?_range hi]
  rfl

/-- Closed instance of C2: three pages, the always-"hello" backend;
the output shows the three ascending headers with blank-line separation. -/
theorem claim_C2_witness :
    ocr_entire_document sampleBackends sampleOpenState =
      DocOcr.result
        "--- Page 1 ---\nhello\n\n--- Page 2 ---\nhello\n\n--- Page 3 ---\nhello\n" := by
  have h := (claim_C2 sampleBackends sampleOpenState sampleDoc (fun _ => "hello")
    rfl rfl rfl (by decide) (fun img => rfl)).1
  rw [h]
  rfl

/-- A call to `display_page` either leaves the state untouched (no truthy
document, closed handle, index out of range) or ends with the selection
cleared. -/
lemma display_page_clear_or_id (s : AppState) :
    display_page s = s ∨
      ((display_page s).selection_rect = none ∧ (display_page s).selection_start = none) := by
  rcases h : s.pdf_document with _ | d
  · left
    simp [display_page, h]
  · simp only [display_page, h]
    split_ifs <;> simp

/-- If a `display_page` call produced a new image, it also cleared the
selection. -/
lemma display_page_image_change (s t : AppState) (himg : t.current_image = s.current_image) :
    (display_page t).current_image ≠ s.current_image →
      (display_page t).selection_rect = none ∧ (display_page t).selection_start = none := by
  intro hne
  rcases display_page_clear_or_id t with h | h
  · rw [h] at hne
    exact absurd himg hne
  · exact h

/-- Any event that changes the displayed image leaves no selection behind:
every render goes through `display_page`, which clears it. -/
lemma image_change_clears_selection (s : AppState) (e : Event) :
    (step s e).current_image ≠ s.current_image →
      (step s e).selection_rect = none ∧ (step s e).selection_start = none := by
  cases e with
  | openPdf choice =>
    rcases choice with _ | result
    · simp [step, open_pdf]
    · rcases hdoc : s.pdf_document with _ | d
      · rcases result with msg | doc
        · simp [step, open_pdf, hdoc]
        · have heq : step s (Event.openPdf (some (Except.ok doc))) =
              display_page
                { s with
                  pdf_document := some doc
                  total_pages := doc.pageCount
                  current_page := 0
                  zoom_level := 1 } := by
            simp [step, open_pdf, hdoc]
          rw [heq]
          exact display_page_image_change s _ rfl
      · by_cases hc : d.closed
        · simp [step, open_pdf, hdoc, hc]
        · rcases result with msg | doc
          · by_cases hp : d.pageCount ≠ 0
            · have heq : step s (Event.openPdf (some (Except.error msg))) =
                  { s with pdf_document := some { d with closed := true } } := by
                simp [step, open_pdf, hdoc, hc, hp]
              rw [heq]
              simp
            · simp [step, open_pdf, hdoc, hc, hp]
          · have heq : step s (Event.openPdf (some (Except.ok doc))) =
                display_page
                  { s with
                    pdf_document := some doc
                    total_pages := doc.pageCount
                    current_page := 0
                    zoom_level := 1 } := by
              simp only [step, open_pdf, hdoc]
              rw [if_neg (by simp [hc])]
              split_ifs <;> rfl
            rw [heq]
            exact display_page_image_change s _ rfl
  | prevPage =>
    rcases hdoc : s.pdf_document with _ | d
    · simp [step, prev_page, hdoc]
    · by_cases hc : d.closed
      · simp [step, prev_page, hdoc, hc]
      · by_cases hg : d.pageCount ≠ 0 ∧ 0 < s.current_page
        · have heq : step s Event.prevPage =
              display_page { s with current_page := s.current_page - 1 } := by
            simp only [step, prev_page, hdoc]
            rw [if_neg (by simp [hc]), if_pos hg]
          rw [heq]
          exact display_page_image_change s _ rfl
        · have heq : step s Event.prevPage = s := by
            simp only [step, prev_page, hdoc]
            rw [if_neg (by simp [hc]), if_neg hg]
          rw [heq]
          simp
  | nextPage =>
    rcases hdoc : s.pdf_document with _ | d
    · simp [step, next_page, hdoc]
    · by_cases hc : d.closed
      · simp [step, next_page, hdoc, hc]
      · by_cases hg : d.pageCount ≠ 0 ∧ s.current_page < s.total_pages - 1
        · have heq : step s Event.nextPage =
              display_page { s with current_page := s.current_page + 1 } := by
            simp only [step, next_page, hdoc]
            rw [if_neg (by simp [hc]), if_pos hg]
          rw [heq]
          exact display_page_image_change s _ rfl
        · have heq : step s Event.nextPage = s := by
            simp only [step, next_page, hdoc]
            rw [if_neg (by simp [hc]), if_neg hg]
          rw [heq]
          simp
  | zoomIn =>
    exact display_page_image_change s { s with zoom_level := zoom_in_level s.zoom_level } rfl
  | zoomOut =>
    exact display_page_image_change s { s with zoom_level := zoom_out_level s.zoom_level } rfl
  | mousePress p =>
    rcases himg : s.current_image with _ | img
    · simp [step, on_mouse_press, himg]
    · have heq : step s (Event.mousePress p) = { s with selection_start := some p } := by
        simp [step, on_mouse_press, himg]
      rw [heq]
      intro hne
      exact absurd himg hne
  | mouseDrag p =>
    simp [step, on_mouse_drag]
  | mouseRelease p =>
    rcases hst : s.selection_start with _ | q
    · simp [step, on_mouse_release, hst]
    · have heq : step s (Event.mouseRelease p) =
          { s with
            selection_rect := some (min q.1 p.1, min q.2 p.2, max q.1 p.1, max q.2 p.2) } := by
        simp [step, on_mouse_release, hst]
      rw [heq]
      intro hne
      exact absurd rfl hne
  | clearSelection =>
    intro _
    exact ⟨rfl, rfl⟩
  | displayOcrResult t =>
    simp [step, display_ocr_result]

/-- A successful render installs the fresh page bitmap and leaves no
selection. -/
lemma display_page_renders (s : AppState) (d : Document)
    (hd : s.pdf_document = some d) (hopen : d.closed = false) (hpc : d.pageCount ≠ 0)
    (hlt : s.current_page < d.pageCount) :
    (display_page s).selection_rect = none ∧ (display_page s).selection_start = none ∧
    (display_page s).current_image =
      some (Bitmap.page d.docId s.current_page (s.zoom_level * (3 / 2))
        (s.zoom_level * (3 / 2))) := by
  simp only [display_page, hd]
  rw [if_neg hpc, if_neg (by simp [hopen]), if_pos hlt]
  exact ⟨rfl, rfl, rfl⟩

/-- After a selection is made, actually moving to the next page clears it,
so a following selection-OCR request warns and never reaches the engine. -/
lemma selection_scenario (s : AppState) (d : Document) (r : ℚ × ℚ × ℚ × ℚ)
    (hd : s.pdf_document = some d) (hopen : d.closed = false)
    (_hsel : s.selection_rect = some r)
    (hmove : s.current_page < s.total_pages - 1)
    (hlt : s.current_page + 1 < d.pageCount) :
    (∃ m, ocr_selection (next_page s) = OcrRequest.warning m) ∧
    ∀ b e, ocr_selection (next_page s) ≠ OcrRequest.engineCall b e := by
  have hpc : d.pageCount ≠ 0 := by omega
  have hnext : next_page s = display_page { s with current_page := s.current_page + 1 } := by
    simp only [next_page, hd]
    rw [if_neg (by simp [hopen]), if_pos ⟨hpc, hmove⟩]
  rcases display_page_renders { s with current_page := s.current_page + 1 } d hd hopen hpc hlt
    with ⟨hrect, hstart, himg⟩
  rw [hnext]
  constructor
  · exact ⟨"Please make a selection first.\nClick and drag on the PDF to select an area.",
      by simp [ocr_selection, himg, hrect]⟩
  · intro b e hcall
    simp [ocr_selection, himg, hrect] at hcall

/-- C6: every event that produces a new rendered image also clears the
selection (so a present selection always refers to the currently displayed
bitmap); a successful render installs the fresh bitmap with no selection;
and after selecting a region and moving to another page, a selection-OCR
request warns instead of calling any engine. -/
theorem claim_C6 :
    (∀ s e, (step s e).current_image ≠ s.current_image →
      (step s e).selection_rect = none ∧ (step s e).selection_start = none) ∧
    (∀ s d, s.pdf_document = some d → d.closed = false → d.pageCount ≠ 0 →
      s.current_page < d.pageCount →
      (display_page s).selection_rect = none ∧ (display_page s).selection_start = none ∧
      (display_page s).current_image =
        some (Bitmap.page d.docId s.current_page (s.zoom_level * (3 / 2))
          (s.zoom_level * (3 / 2)))) ∧
    (∀ s d r, s.pdf_document = some d → d.closed = false → s.selection_rect = some r →
      s.current_page < s.total_pages - 1 → s.current_page + 1 < d.pageCount →
      (∃ m, ocr_selection (next_page s) = OcrRequest.warning m) ∧
      ∀ b e, ocr_selection (next_page s) ≠ OcrRequest.engineCall b e) :=
  ⟨image_change_clears_selection,
    fun s d hd hopen hpc hlt => display_page_renders s d hd hopen hpc hlt,
    fun s d r hd hopen hs hmove hlt => selection_scenario s d r hd hopen hs hmove hlt⟩

/-- Closed instance of C6: at the concrete selected state, moving to the
next page re-renders with the selection gone, and a selection-OCR request
after that warns. -/
theorem claim_C6_witness :
    ((step sampleSelectedState Event.nextPage).selection_rect = none ∧
      (step sampleSelectedState Event.nextPage).selection_start = none) ∧
    (∃ m, ocr_selection (next_page sampleSelectedState) = OcrRequest.warning m) := by
  constructor
  · exact claim_C6.1 sampleSelectedState Event.nextPage
      (by simp [step, next_page, display_page, sampleSelectedState, sampleOpenState,
        sampleDoc, initialState])
  · exact (claim_C6.2.2 sampleSelectedState sampleDoc (1, 1, 2, 2)
      rfl rfl rfl (by decide) (by decide)).1
